import Mathlib

/-!
Shallow embedding of `term/termios_darwin.go` (package `term`): terminal
attribute access (`Attr`, `Termios.Set`, `Isatty`), the secure prompt reader
(`GetPass`, `clearbuf`) and the PTY pair operations (`OpenPTY`, `PTY.Close`,
`PTY.PTSName`, `PTY.PTSNumber`).

Kernel interaction (ioctl results, per-byte reads) is modelled by explicit
oracles; file handles are values carrying the outcome the kernel would give;
a Go `nil` pointer is `Option.none`, and a runtime panic is a distinguished
outcome constructor.
-/

/-- `CBAUD` serial speed settings mask, from the source constants. -/
def CBAUD : Nat := 0o010017

/-- `CBAUDEX` serial speed settings mask, from the source constants. -/
def CBAUDEX : Nat := 0o010000

/-- Modelled from the spec: the echo local-mode flag (`ECHO`), a single bit of
the local-flags word, defined in a file of the repository outside `src/`.
Its exact numeric value is immaterial to the development. -/
def ECHO : Nat := 8

/-- Window-size structure (rows, cols, pixel sizes), from the source. -/
structure Winsize where
  ws_row : Nat
  ws_col : Nat
  ws_xpixel : Nat
  ws_ypixel : Nat
deriving DecidableEq, Repr

/-- Modelled from the spec: `TerminalAttributes` (Go `Termios`), defined in a
file of the repository outside `src/`: input/output/control/local flag words,
control-character table, input and output speed, plus the window-size field
the source methods use (`t.Wz`). -/
structure Termios where
  Iflag : Nat
  Oflag : Nat
  Cflag : Nat
  Lflag : Nat
  Cc : List Nat
  Ispeed : Nat
  Ospeed : Nat
  Wz : Winsize
deriving DecidableEq, Repr

/-- Result of a Go call: a normal value, a returned error, or a runtime
panic. -/
inductive Outcome (α : Type) where
  | ok (val : α)
  | err (msg : String)
  | panic (msg : String)
deriving DecidableEq, Repr

/-- Oracle for one terminal device during a `GetPass` call: current kernel
attributes, the outcome of the `TCGETS` ioctl, the outcomes of successive
`TCSETS` ioctls (consumed in call order), the outcome of the prompt write,
and the outcomes of the successive one-byte reads. -/
structure TTY where
  attrs : Termios
  attrErr : Option String
  setResults : List (Option String)
  writeErr : Option String
  reads : List (Except String Nat)

/-- The kernel's answer to the `TCGETS` ioctl on a `TTY`. -/
def tcgets (tty : TTY) : Except String Termios :=
  match tty.attrErr with
  | some e => .error e
  | none => .ok tty.attrs

/-- `Attr`: gets terminal attributes; on success the two speed fields are
masked with `CBAUD | CBAUDEX` and nothing else is changed (source lines
70–80). The argument is the kernel's response to the `TCGETS` ioctl. -/
def Attr (resp : Except String Termios) : Except String Termios :=
  match resp with
  | .error e => .error e
  | .ok t =>
      .ok { t with Ispeed := t.Ispeed &&& (CBAUD ||| CBAUDEX),
                   Ospeed := t.Ospeed &&& (CBAUD ||| CBAUDEX) }

/-- `Attr` applied to a `TTY` oracle. -/
def AttrT (tty : TTY) : Except String Termios := Attr (tcgets tty)

/-- `Isatty`: true iff `Attr` returns no error (source lines 83–86). -/
def Isatty (resp : Except String Termios) : Bool :=
  match Attr resp with
  | .ok _ => true
  | .error _ => false

/-- `Termios.Set`: the `TCSETS` ioctl; consumes the next scripted set
outcome. On success the device attributes become `t`; on failure they are
unchanged (source lines 60–67). -/
def Termios.Set (t : Termios) (tty : TTY) : Option String × TTY :=
  match tty.setResults with
  | [] => (none, { tty with attrs := t })
  | some e :: rs => (some e, { tty with setResults := rs })
  | none :: rs => (none, { tty with attrs := t, setResults := rs })

/-- Go `a &^ b`: clear in `a` every bit set in `b`. -/
def andNot (a b : Nat) : Nat := Nat.ldiff a b

/-- `clearbuf` applied to the slice `buf[:k]` of a backing buffer `b`
(source lines 121–125): the first `k` bytes are zeroed (capped at the
backing length; the bound check against the capacity is done by the caller's
slice expression, not here). -/
def clearbuf (b : List Nat) (k : Nat) : List Nat :=
  List.replicate (min k b.length) 0 ++ b.drop k

/-- The `for` loop of `GetPass` (source lines 105–115): `rem` is the number
of free slots left (`len(pbuf) - i`), `i` the current index, `reads` the
outcomes of the remaining one-byte reads (an exhausted script behaves as a
persistent read error, like end-of-input). Returns `some pw` with the early
return value `pbuf[:i]` when a terminator is seen, `none` when the loop runs
out of buffer, together with the final buffer contents. -/
def gpLoop : List (Except String Nat) → Nat → List Nat → Nat →
    Option (List Nat) × List Nat
  | _, 0, arr, _ => (none, arr)
  | [], rem + 1, arr, i =>
      gpLoop [] rem ((clearbuf arr (i + 1)).set i 0) (i + 1)
  | .error _ :: rest, rem + 1, arr, i =>
      gpLoop rest rem ((clearbuf arr (i + 1)).set i 0) (i + 1)
  | .ok b0 :: rest, rem + 1, arr, i =>
      if b0 = 10 ∨ b0 = 13 then (some (arr.take i), arr)
      else gpLoop rest rem (arr.set i b0) (i + 1)

/-- `GetPass` (source lines 89–118): capture attributes, disable echo,
schedule the deferred restore, write the prompt, run the read loop; on loop
exhaustion `clearbuf(pbuf[:i+1])` with `i = len(pbuf)` panics unless the
slice capacity `cap` exceeds the length. The deferred `t.Set` runs on every
exit path (panics included) and its error is not returned. Result: the Go
return value, the final buffer contents, and the final device state. -/
def GetPass (prompt : String) (tty : TTY) (pbuf : List Nat) (cap : Nat) :
    Outcome (List Nat) × List Nat × TTY :=
  match AttrT tty with
  | .error e => (.err e, pbuf, tty)
  | .ok t =>
      let noecho := { t with Lflag := andNot t.Lflag ECHO }
      match noecho.Set tty with
      | (some e, tty1) => (.err e, pbuf, (t.Set tty1).2)
      | (none, tty1) =>
        match tty1.writeErr with
        | some e => (.err e, pbuf, (t.Set tty1).2)
        | none =>
          match gpLoop tty1.reads pbuf.length pbuf 0 with
          | (some pw, arr1) => (.ok pw, arr1, (t.Set tty1).2)
          | (none, arr1) =>
            if pbuf.length + 1 ≤ cap then
              (.err "ran out of bufferspace", clearbuf arr1 (pbuf.length + 1),
               (t.Set tty1).2)
            else
              (.panic "slice bounds out of range", arr1, (t.Set tty1).2)

/-- An open file handle as the kernel sees it for this development: its
descriptor number and the outcome its `Close()` would produce. -/
structure GoFile where
  fd : Nat
  closeErr : Option String
deriving DecidableEq, Repr

/-- Modelled from the spec: the `PTY` pair structure (defined in a file of
the repository outside `src/`): a master and a slave file handle, each a Go
pointer that may be nil. -/
structure PTY where
  Master : Option GoFile
  Slave : Option GoFile
deriving DecidableEq, Repr

/-- Events on the pair's underlying descriptors, recorded to witness which
handles a call opens or closes. -/
inductive FdEv where
  | openMaster
  | openSlave
  | closeMaster
  | closeSlave
deriving DecidableEq, Repr

/-- Go `strings.Join(elems, sep)`. -/
def stringsJoin (elems : List String) (sep : String) : String :=
  match elems with
  | [] => ""
  | e :: rest => rest.foldl (fun acc s => acc ++ sep ++ s) e

/-- `PTY.Close` (source lines 236–259): on a nil receiver returns the
`"no PTY"` error; otherwise closes slave then master (a nil handle is not
closed and stands for its own `"... FD nil"` error), and aggregates the two
outcomes with `strings.Join`. Also returns the close events performed. -/
def PTY.Close (p : Option PTY) : Outcome Unit × List FdEv :=
  match p with
  | none => (.err "no PTY", [])
  | some pty =>
      let se : Option String × List FdEv :=
        match pty.Slave with
        | none => (some "Slave FD nil", [])
        | some f => (f.closeErr, [.closeSlave])
      let me : Option String × List FdEv :=
        match pty.Master with
        | none => (some "Master FD nil", [])
        | some f => (f.closeErr, [.closeMaster])
      let tr := se.2 ++ me.2
      match se.1, me.1 with
      | none, none => (.ok (), tr)
      | s?, m? =>
          (.err (stringsJoin
            ((s?.map (fun s => "Slave: " ++ s)).toList ++
             (m?.map (fun s => "Master: " ++ s)).toList) " "), tr)

/-- Oracle for one `OpenPTY` call: outcome of opening `/dev/ptmx`, the byte
buffer filled by the `TIOCPTYGNAME` ioctl (or its error), outcomes of the
grant and unlock ioctls, and the outcome of opening the slave device by
name. -/
structure PtyKernel where
  openMasterRes : Except String GoFile
  gnameRes : Except String (List Nat)
  grantRes : Option String
  unlockRes : Option String
  openSlaveRes : List Nat → Except String GoFile

/-- Scan of the name buffer in `ptsname` (source lines 227–232): the bytes
up to the first NUL, or the non-terminated error. -/
def scanNul : List Nat → Except String (List Nat)
  | [] => .error "TIOCPTYGNAME string not NUL-terminated"
  | c :: rest =>
      if c = 0 then .ok []
      else (scanNul rest).map (fun l => c :: l)

/-- `ptsname` (source lines 219–233): issue the `TIOCPTYGNAME` ioctl and
scan the returned buffer for the NUL terminator. -/
def ptsname (k : PtyKernel) : Except String (List Nat) :=
  match k.gnameRes with
  | .error e => .error e
  | .ok buf => scanNul buf

/-- `OpenPTY` (source lines 168–195): open master, discover the slave name,
grant, unlock, open the slave by the discovered name; the first failure is
returned as-is, with no cleanup of the already-opened master. Also returns
the open/close events performed. -/
def OpenPTY (k : PtyKernel) : Except String PTY × List FdEv :=
  match k.openMasterRes with
  | .error e => (.error e, [])
  | .ok m =>
      match ptsname k with
      | .error e => (.error e, [.openMaster])
      | .ok sname =>
          match k.grantRes with
          | some e => (.error e, [.openMaster])
          | none =>
              match k.unlockRes with
              | some e => (.error e, [.openMaster])
              | none =>
                  match k.openSlaveRes sname with
                  | .error e => (.error e, [.openMaster])
                  | .ok s =>
                      (.ok { Master := some m, Slave := some s },
                       [.openMaster, .openSlave])

/-- Oracle for the `TIOCGPTN` ioctl on a master descriptor: the kernel's
response as a function of the descriptor and of how many queries have been
made so far (so that a repeated query is observably fresh). -/
structure PtyNoKernel where
  resp : Nat → Nat → Except String Nat
  calls : Nat

/-- `os.File.Fd()`: a nil file folds to the all-ones invalid descriptor
(`^uintptr(0)`), per the standard library; a nil check lives there, not in
this package. -/
def FileFd : Option GoFile → Nat
  | none => 2 ^ 64 - 1
  | some f => f.fd

/-- `PTY.PTSNumber` (source lines 271–278): dereferences the receiver (nil
receiver: runtime panic), issues `TIOCGPTN` on the master's descriptor and
returns the 32-bit number the kernel wrote into the zero-initialised `uint`
variable. -/
def PTY.PTSNumber (p : Option PTY) (k : PtyNoKernel) :
    Outcome Nat × PtyNoKernel :=
  match p with
  | none => (.panic "invalid memory address or nil pointer dereference", k)
  | some pty =>
      let k1 := { k with calls := k.calls + 1 }
      match k.resp (FileFd pty.Master) k.calls with
      | .error e => (.err e, k1)
      | .ok v => (.ok (v % 2 ^ 32), k1)

/-- Go `strconv.Itoa(int(n))` for `n : uint`: the two's-complement reading
of the 64-bit word, in decimal. -/
def itoa (n : Nat) : String :=
  if n < 2 ^ 63 then Nat.repr n else "-" ++ Nat.repr (2 ^ 64 - n)

/-- `PTY.PTSName` (source lines 262–268): query the number (propagating a
panic or error) and prepend the pts directory path. -/
def PTY.PTSName (p : Option PTY) (k : PtyNoKernel) :
    Outcome String × PtyNoKernel :=
  match PTY.PTSNumber p k with
  | (.panic m, k1) => (.panic m, k1)
  | (.err e, k1) => (.err e, k1)
  | (.ok n, k1) => (.ok ("/dev/pts/" ++ itoa n), k1)

/-! ## Theorems -/

/-- C1: evaluation of `GetPass` at a read failure in mid-input. The buffer
has length and capacity 4 and the scripted reads are byte 97, a read error,
byte 98, then the terminator: the code zeroes the bytes written so far but
does not return; it keeps reading and finally returns a normal (non-error)
result assembled from bytes read after the failure. -/
theorem getPass_keeps_reading_after_read_error :
    (GetPass "" ⟨⟨0, 0, 0, 0, [], 0, 0, ⟨0, 0, 0, 0⟩⟩, none, [none, none],
        none, [.ok 97, .error "input error", .ok 98, .ok 10]⟩
      [1, 1, 1, 1] 4).1 = .ok [0, 0, 98] := rfl

/-- C2: evaluation of `GetPass` on buffer exhaustion when the caller's
slice has capacity equal to its length (the common `make([]byte, n)` case):
`clearbuf(pbuf[:len+1])` overruns the capacity, so the call panics instead
of returning the buffer-exhaustion error, and the password bytes read so
far are left in the buffer un-zeroed. -/
theorem getPass_panics_on_exact_capacity_exhaustion :
    (GetPass "" ⟨⟨0, 0, 0, 0, [], 0, 0, ⟨0, 0, 0, 0⟩⟩, none, [none, none],
        none, [.ok 97, .ok 98]⟩ [7, 7] 2).1 =
      .panic "slice bounds out of range" ∧
    (GetPass "" ⟨⟨0, 0, 0, 0, [], 0, 0, ⟨0, 0, 0, 0⟩⟩, none, [none, none],
        none, [.ok 97, .ok 98]⟩ [7, 7] 2).2.1 = [97, 98] :=
  ⟨rfl, rfl⟩

/-- C2 (companion): with one spare byte of slice capacity beyond the
length, the exhaustion path does return the buffer-space error with the
whole buffer zeroed, as the claim describes. -/
theorem getPass_exhaustion_with_spare_capacity :
    (GetPass "" ⟨⟨0, 0, 0, 0, [], 0, 0, ⟨0, 0, 0, 0⟩⟩, none, [none, none],
        none, [.ok 97, .ok 98]⟩ [7, 7] 3).1 = .err "ran out of bufferspace" ∧
    (GetPass "" ⟨⟨0, 0, 0, 0, [], 0, 0, ⟨0, 0, 0, 0⟩⟩, none, [none, none],
        none, [.ok 97, .ok 98]⟩ [7, 7] 3).2.1 = [0, 0] :=
  ⟨rfl, rfl⟩

/-- C3: with scripted input `"hunter2\n"`, a buffer of length at least 8
(within its capacity) and all kernel calls succeeding, `GetPass` returns
exactly the bytes of `"hunter2"` and the device's echo attribute after the
call equals its value before the call. -/
theorem getPass_hunter2 (prompt : String) (a : Termios) (pbuf : List Nat)
    (cap : Nat) (hlen : 8 ≤ pbuf.length) (hcap : pbuf.length ≤ cap) :
    (GetPass prompt ⟨a, none, [none, none], none,
        [.ok 104, .ok 117, .ok 110, .ok 116, .ok 101, .ok 114, .ok 50,
         .ok 10]⟩ pbuf cap).1 = .ok [104, 117, 110, 116, 101, 114, 50] ∧
    ((GetPass prompt ⟨a, none, [none, none], none,
        [.ok 104, .ok 117, .ok 110, .ok 116, .ok 101, .ok 114, .ok 50,
         .ok 10]⟩ pbuf cap).2.2.attrs.Lflag &&& ECHO) =
      a.Lflag &&& ECHO := by
  rcases pbuf with _ | ⟨x0, pbuf⟩; · simp at hlen
  rcases pbuf with _ | ⟨x1, pbuf⟩; · simp at hlen
  rcases pbuf with _ | ⟨x2, pbuf⟩; · simp at hlen
  rcases pbuf with _ | ⟨x3, pbuf⟩; · simp at hlen
  rcases pbuf with _ | ⟨x4, pbuf⟩; · simp at hlen
  rcases pbuf with _ | ⟨x5, pbuf⟩; · simp at hlen
  rcases pbuf with _ | ⟨x6, pbuf⟩; · simp at hlen
  rcases pbuf with _ | ⟨x7, pbuf⟩; · simp at hlen
  exact ⟨rfl, rfl⟩

/-- Witness for C3 at a concrete zeroed 8-byte buffer and attribute set. -/
theorem getPass_hunter2_witness :
    (GetPass "Password: " ⟨⟨0, 0, 0, 11, [], 0, 0, ⟨0, 0, 0, 0⟩⟩, none,
        [none, none], none,
        [.ok 104, .ok 117, .ok 110, .ok 116, .ok 101, .ok 114, .ok 50,
         .ok 10]⟩ [0, 0, 0, 0, 0, 0, 0, 0] 8).1 =
      .ok [104, 117, 110, 116, 101, 114, 50] ∧
    ((GetPass "Password: " ⟨⟨0, 0, 0, 11, [], 0, 0, ⟨0, 0, 0, 0⟩⟩, none,
        [none, none], none,
        [.ok 104, .ok 117, .ok 110, .ok 116, .ok 101, .ok 114, .ok 50,
         .ok 10]⟩ [0, 0, 0, 0, 0, 0, 0, 0] 8).2.2.attrs.Lflag &&& ECHO) =
      11 &&& ECHO :=
  getPass_hunter2 "Password: " ⟨0, 0, 0, 11, [], 0, 0, ⟨0, 0, 0, 0⟩⟩
    [0, 0, 0, 0, 0, 0, 0, 0] 8 (by decide) (by decide)

/-- C4 (counterexample): a device whose final deferred attribute
restoration fails (second scripted `TCSETS` outcome is an error) while
everything else succeeds: `GetPass` still returns a normal, non-error
result, so that kernel-call failure is discarded rather than surfaced,
contrary to the claim. The second conjunct shows the failing restore was
indeed consumed. -/
theorem getPass_discards_restore_failure :
    (GetPass "" ⟨⟨0, 0, 0, 0, [], 0, 0, ⟨0, 0, 0, 0⟩⟩, none,
        [none, some "input/output error"], none, [.ok 10]⟩ [0] 1).1 =
      .ok [] ∧
    (GetPass "" ⟨⟨0, 0, 0, 0, [], 0, 0, ⟨0, 0, 0, 0⟩⟩, none,
        [none, some "input/output error"], none, [.ok 10]⟩ [0]
      1).2.2.setResults = [] :=
  ⟨rfl, rfl⟩

/-- C4 (amended): every kernel-call failure up to and including the prompt
write — the attribute query, the echo-disabling attribute write, and the
prompt write — is surfaced to the caller as that call's error value; a
failure of the final deferred restoration, however, is not surfaced: the
call returns its normal result regardless. -/
theorem getPass_surfaces_precall_errors (prompt : String) (tty : TTY)
    (pbuf : List Nat) (cap : Nat) :
    (∀ e, tty.attrErr = some e → (GetPass prompt tty pbuf cap).1 = .err e) ∧
    (∀ e rs, tty.attrErr = none → tty.setResults = some e :: rs →
      (GetPass prompt tty pbuf cap).1 = .err e) ∧
    (∀ e rs, tty.attrErr = none → tty.setResults = none :: rs →
      tty.writeErr = some e → (GetPass prompt tty pbuf cap).1 = .err e) ∧
    (∀ r b bs, tty.attrErr = none → tty.setResults = [none, some r] →
      tty.writeErr = none → tty.reads = [.ok 10] → pbuf = b :: bs →
      (GetPass prompt tty pbuf cap).1 = .ok []) := by
  obtain ⟨at0, ae, sr, we, rd⟩ := tty
  refine ⟨?_, ?_, ?_, ?_⟩
  · intro e h
    simp only at h
    subst h
    rfl
  · intro e rs h1 h2
    simp only at h1 h2
    subst h1 h2
    rfl
  · intro e rs h1 h2 h3
    simp only at h1 h2 h3
    subst h1 h2 h3
    rfl
  · intro r b bs h1 h2 h3 h4 h5
    simp only at h1 h2 h3 h4
    subst h1 h2 h3 h4 h5
    rfl

/-- Witness for the amended C4: the echo-disabling attribute write fails
with a concrete error, and `GetPass` returns exactly that error. -/
theorem getPass_surfaces_precall_errors_witness :
    (GetPass "" ⟨⟨0, 0, 0, 0, [], 0, 0, ⟨0, 0, 0, 0⟩⟩, none,
        [some "operation not permitted"], none, []⟩ [] 0).1 =
      .err "operation not permitted" :=
  (getPass_surfaces_precall_errors ""
    ⟨⟨0, 0, 0, 0, [], 0, 0, ⟨0, 0, 0, 0⟩⟩, none,
      [some "operation not permitted"], none, []⟩ [] 0).2.1
    "operation not permitted" [] rfl rfl


/-- C7: `Isatty` returns `true` exactly when the attribute query `Attr`
succeeds and `false` exactly when it fails; being a boolean-valued total
function, it never surfaces an error. -/
theorem isatty_iff_attr_ok (resp : Except String Termios) :
    (Isatty resp = true ↔ ∃ t, Attr resp = .ok t) ∧
    (Isatty resp = false ↔ ∃ e, Attr resp = .error e) := by
  cases resp <;> simp [Isatty, Attr]

/-- C8: whatever `Termios` value the kernel returns from the `TCGETS` ioctl,
the value `Attr` hands to the caller has both speed fields masked with
`CBAUD | CBAUDEX` and every other field unchanged. -/
theorem attr_masks_speeds_only (t u : Termios) (hu : Attr (.ok t) = .ok u) :
    u.Ispeed = t.Ispeed &&& (CBAUD ||| CBAUDEX) ∧
    u.Ospeed = t.Ospeed &&& (CBAUD ||| CBAUDEX) ∧
    u.Iflag = t.Iflag ∧ u.Oflag = t.Oflag ∧ u.Cflag = t.Cflag ∧
    u.Lflag = t.Lflag ∧ u.Cc = t.Cc ∧ u.Wz = t.Wz := by
  simp only [Attr, Except.ok.injEq] at hu
  subst hu
  exact ⟨rfl, rfl, rfl, rfl, rfl, rfl, rfl, rfl⟩

/-- Witness for C8 at a concrete kernel-returned attribute value. -/
theorem attr_masks_speeds_only_witness :
    (4111 : Nat) = 0xFFFF &&& (CBAUD ||| CBAUDEX) ∧
    (15 : Nat) = 15 &&& (CBAUD ||| CBAUDEX) ∧
    (1 : Nat) = 1 ∧ (2 : Nat) = 2 ∧ (3 : Nat) = 3 ∧ (4 : Nat) = 4 ∧
    ([5] : List Nat) = [5] ∧ (⟨6, 7, 8, 9⟩ : Winsize) = ⟨6, 7, 8, 9⟩ :=
  attr_masks_speeds_only ⟨1, 2, 3, 4, [5], 0xFFFF, 15, ⟨6, 7, 8, 9⟩⟩
    ⟨1, 2, 3, 4, [5], 4111, 15, ⟨6, 7, 8, 9⟩⟩ rfl

/-- C9: whenever `PTY.PTSNumber` succeeds with value `n`, `PTY.PTSName` on
the same pair and kernel state returns exactly `"/dev/pts/" ++` the decimal
representation of `n`, the query consumed one fresh `TIOCGPTN` call (the
call counter advances), and `n` is the kernel's response to this very call,
not a cached value. -/
theorem ptsname_appends_fresh_number (p : Option PTY) (k : PtyNoKernel)
    (n : Nat) (k1 : PtyNoKernel)
    (h : PTY.PTSNumber p k = (.ok n, k1)) :
    PTY.PTSName p k = (.ok ("/dev/pts/" ++ Nat.repr n), k1) ∧
    k1.calls = k.calls + 1 ∧
    ∃ pty, p = some pty ∧
      ∃ v, k.resp (FileFd pty.Master) k.calls = .ok v ∧ n = v % 2 ^ 32 := by
  rcases p with _ | pty
  · exact absurd (congrArg Prod.fst h) (by simp [PTY.PTSNumber])
  · rw [PTY.PTSNumber] at h
    rcases hr : k.resp (FileFd pty.Master) k.calls with e | v <;> rw [hr] at h
    · exact absurd (congrArg Prod.fst h) (by simp)
    · have hn : n = v % 2 ^ 32 := by
        simpa using (congrArg Prod.fst h).symm
      have hk1 : k1 = { k with calls := k.calls + 1 } := by
        simpa using (congrArg Prod.snd h).symm
      subst hn hk1
      refine ⟨?_, rfl, pty, rfl, v, hr, rfl⟩
      rw [PTY.PTSName, PTY.PTSNumber, hr]
      have hin : v % 2 ^ 32 < 2 ^ 63 :=
        lt_trans (Nat.mod_lt _ (by norm_num)) (by norm_num)
      simp only [itoa, if_pos hin]

/-- Witness for C9 at a concrete pair and kernel oracle. -/
theorem ptsname_appends_fresh_number_witness :
    PTY.PTSName (some ⟨some ⟨3, none⟩, none⟩) ⟨fun _ _ => .ok 5, 0⟩ =
      (.ok ("/dev/pts/" ++ Nat.repr 5), ⟨fun _ _ => .ok 5, 1⟩) :=
  (ptsname_appends_fresh_number (some ⟨some ⟨3, none⟩, none⟩)
    ⟨fun _ _ => .ok 5, 0⟩ 5 ⟨fun _ _ => .ok 5, 1⟩ rfl).1

/-- C10: `PTY.Close` on a nil pair pointer returns the `"no PTY"` error and
can never panic, while `PTY.PTSNumber` and `PTY.PTSName` panic on a nil
pair pointer (they have no guard) and are panic-free once the pair is
non-nil with a non-nil master handle. -/
theorem close_guards_nil_ptsnumber_does_not :
    (PTY.Close none).1 = .err "no PTY" ∧
    (∀ p m, (PTY.Close p).1 ≠ .panic m) ∧
    (∀ k, (PTY.PTSNumber none k).1 =
      .panic "invalid memory address or nil pointer dereference") ∧
    (∀ k, (PTY.PTSName none k).1 =
      .panic "invalid memory address or nil pointer dereference") ∧
    (∀ pty k f, pty.Master = some f →
      (∀ m, (PTY.PTSNumber (some pty) k).1 ≠ .panic m) ∧
      (∀ m, (PTY.PTSName (some pty) k).1 ≠ .panic m)) := by
  refine ⟨rfl, ?_, fun _ => rfl, fun _ => rfl, ?_⟩
  · intro p m
    rcases p with _ | ⟨mh, sh⟩
    · simp [PTY.Close]
    · rcases sh with _ | ⟨sfd, _ | es⟩ <;> rcases mh with _ | ⟨mfd, _ | em⟩ <;>
        simp [PTY.Close, stringsJoin]
  · intro pty k f hf
    constructor
    · intro m
      rw [PTY.PTSNumber]
      rcases hr : k.resp (FileFd pty.Master) k.calls with e | v <;> simp [hr]
    · intro m
      rw [PTY.PTSName, PTY.PTSNumber]
      rcases hr : k.resp (FileFd pty.Master) k.calls with e | v <;> simp [hr]

/-- C5: `PTY.Close` on a non-nil pair attempts to close both handles
unconditionally, slave first then master (independently of any failure);
it returns the clean result exactly when both sides are present and close
cleanly; a single failing side yields an error naming that side with its
underlying message, two failing sides yield both messages slave-first, and
a nil (never-opened) side is reported as its own failure. -/
theorem close_aggregates (pty : PTY) :
    ((PTY.Close (some pty)).2 =
      (match pty.Slave with | none => [] | some _ => [FdEv.closeSlave]) ++
      (match pty.Master with | none => [] | some _ => [FdEv.closeMaster])) ∧
    ((PTY.Close (some pty)).1 = .ok () ↔
      ((∃ fs, pty.Slave = some fs ∧ fs.closeErr = none) ∧
       (∃ fm, pty.Master = some fm ∧ fm.closeErr = none))) ∧
    (∀ fs fm es, pty.Slave = some fs → fs.closeErr = some es →
      pty.Master = some fm → fm.closeErr = none →
      (PTY.Close (some pty)).1 = .err ("Slave: " ++ es)) ∧
    (∀ fs fm em, pty.Slave = some fs → fs.closeErr = none →
      pty.Master = some fm → fm.closeErr = some em →
      (PTY.Close (some pty)).1 = .err ("Master: " ++ em)) ∧
    (∀ fs fm es em, pty.Slave = some fs → fs.closeErr = some es →
      pty.Master = some fm → fm.closeErr = some em →
      (PTY.Close (some pty)).1 =
        .err ("Slave: " ++ es ++ " " ++ ("Master: " ++ em))) ∧
    (∀ fm, pty.Slave = none → pty.Master = some fm → fm.closeErr = none →
      (PTY.Close (some pty)).1 = .err "Slave: Slave FD nil") := by
  obtain ⟨m, s⟩ := pty
  refine ⟨?_, ?_, ?_, ?_, ?_, ?_⟩
  · rcases s with _ | ⟨sfd, _ | es⟩ <;> rcases m with _ | ⟨mfd, _ | em⟩ <;> rfl
  · rcases s with _ | ⟨sfd, _ | es⟩ <;> rcases m with _ | ⟨mfd, _ | em⟩ <;>
      simp [PTY.Close, stringsJoin]
  · rintro ⟨sfd, serr⟩ ⟨mfd, merr⟩ es hs hse hm hme
    subst hs hm
    simp only at hse hme
    subst hse hme
    rfl
  · rintro ⟨sfd, serr⟩ ⟨mfd, merr⟩ em hs hse hm hme
    subst hs hm
    simp only at hse hme
    subst hse hme
    rfl
  · rintro ⟨sfd, serr⟩ ⟨mfd, merr⟩ es em hs hse hm hme
    subst hs hm
    simp only at hse hme
    subst hse hme
    rfl
  · rintro ⟨mfd, merr⟩ hs hm hme
    subst hs hm
    simp only at hme
    subst hme
    rfl

/-- Witness for C5: both sides fail, and the aggregate names the slave
first with both underlying messages. -/
theorem close_aggregates_witness :
    (PTY.Close (some ⟨some ⟨4, some "bad master"⟩, some ⟨5, some "bad slave"⟩⟩)).1 =
      .err ("Slave: " ++ "bad slave" ++ " " ++ ("Master: " ++ "bad master")) :=
  (close_aggregates ⟨some ⟨4, some "bad master"⟩, some ⟨5, some "bad slave"⟩⟩).2.2.2.2.1
    ⟨5, some "bad slave"⟩ ⟨4, some "bad master"⟩ "bad slave" "bad master"
    rfl rfl rfl rfl

/-- C6: `OpenPTY` performs exactly open-master, name discovery, grant,
unlock, open-slave in sequence; the first failing step's error is returned
as-is and aborts the sequence, the successful run returns the pair of the
two opened handles, and in no case is the already-opened master closed by
this call. -/
theorem openPTY_sequence (k : PtyKernel) :
    (∀ e, k.openMasterRes = .error e → OpenPTY k = (.error e, [])) ∧
    (∀ m e, k.openMasterRes = .ok m → ptsname k = .error e →
      OpenPTY k = (.error e, [.openMaster])) ∧
    (∀ m sn e, k.openMasterRes = .ok m → ptsname k = .ok sn →
      k.grantRes = some e → OpenPTY k = (.error e, [.openMaster])) ∧
    (∀ m sn e, k.openMasterRes = .ok m → ptsname k = .ok sn →
      k.grantRes = none → k.unlockRes = some e →
      OpenPTY k = (.error e, [.openMaster])) ∧
    (∀ m sn e, k.openMasterRes = .ok m → ptsname k = .ok sn →
      k.grantRes = none → k.unlockRes = none → k.openSlaveRes sn = .error e →
      OpenPTY k = (.error e, [.openMaster])) ∧
    (∀ m sn s, k.openMasterRes = .ok m → ptsname k = .ok sn →
      k.grantRes = none → k.unlockRes = none → k.openSlaveRes sn = .ok s →
      OpenPTY k = (.ok { Master := some m, Slave := some s },
                   [.openMaster, .openSlave])) ∧
    (FdEv.closeMaster ∉ (OpenPTY k).2 ∧ FdEv.closeSlave ∉ (OpenPTY k).2) := by
  refine ⟨?_, ?_, ?_, ?_, ?_, ?_, ?_⟩
  · intro e h
    simp [OpenPTY, h]
  · intro m e hm hp
    simp [OpenPTY, hm, hp]
  · intro m sn e hm hp hg
    simp [OpenPTY, hm, hp, hg]
  · intro m sn e hm hp hg hu
    simp [OpenPTY, hm, hp, hg, hu]
  · intro m sn e hm hp hg hu hs
    simp [OpenPTY, hm, hp, hg, hu, hs]
  · intro m sn s hm hp hg hu hs
    simp [OpenPTY, hm, hp, hg, hu, hs]
  · rcases hm : k.openMasterRes with e | m
    · simp [OpenPTY, hm]
    · rcases hp : ptsname k with e | sn
      · simp [OpenPTY, hm, hp]
      · rcases hg : k.grantRes with _ | e
        · rcases hu : k.unlockRes with _ | e
          · rcases hs : k.openSlaveRes sn with e | s <;>
              simp [OpenPTY, hm, hp, hg, hu, hs]
          · simp [OpenPTY, hm, hp, hg, hu]
        · simp [OpenPTY, hm, hp, hg]

/-- Witness for C6: a fully successful run at a concrete kernel oracle
(name buffer `"p" NUL`), yielding the pair and no close of the master. -/
theorem openPTY_sequence_witness :
    OpenPTY ⟨.ok ⟨3, none⟩, .ok [112, 0, 99], none, none,
      fun _ => .ok ⟨4, none⟩⟩ =
      (.ok { Master := some ⟨3, none⟩, Slave := some ⟨4, none⟩ },
       [.openMaster, .openSlave]) :=
  (openPTY_sequence ⟨.ok ⟨3, none⟩, .ok [112, 0, 99], none, none,
      fun _ => .ok ⟨4, none⟩⟩).2.2.2.2.2.1 ⟨3, none⟩ [112] ⟨4, none⟩
    rfl rfl rfl rfl rfl

/-- Witness for C10 at a concrete non-nil pair with a non-nil master. -/
theorem close_guards_nil_witness :
    (PTY.PTSNumber (some ⟨some ⟨3, none⟩, none⟩) ⟨fun _ _ => .ok 7, 0⟩).1 ≠
      .panic "invalid memory address or nil pointer dereference" :=
  ((close_guards_nil_ptsnumber_does_not.2.2.2.2 ⟨some ⟨3, none⟩, none⟩
    ⟨fun _ _ => .ok 7, 0⟩ ⟨3, none⟩ rfl).1) _
